import Mathlib

/-!
Verification development for the fboss SAI hardware-object engine:
a shallow embedding of `SaiApi` (fboss/agent/hw/sai/api/SaiApi.h),
the Trident2 capability profile (fboss/agent/hw/switch_asics/Trident2Asic.h)
and the manager registry (fboss/agent/hw/sai/switch/SaiManagerTable.cpp),
together with theorems about their behaviour.
-/

namespace Fboss

/-! ## Vendor status codes and error types

Modelled from the spec: the vendor SDK status convention (sai.h is not in
the repository): one success value, one recognized transient overflow value
for undersized list buffers, other values mapping to failure categories.
The concrete numerals are arbitrary distinct values.
-/

def SAI_STATUS_SUCCESS : Int := 0

def SAI_STATUS_BUFFER_OVERFLOW : Int := -7

/-- The engine-level hardware-call error (HardwareCallError in the spec,
`SaiApiError` in the code); carries an operation description. -/
structure SaiApiError where
  msg : String
deriving Repr, DecidableEq

/-- Modelled from the spec: `saiApiCheckError` (SaiApiError.h is not in the
repository) raises HardwareCallError on any non-success vendor status. -/
def saiApiCheckError (status : Int) (msg : String) : Except SaiApiError Unit :=
  if status = SAI_STATUS_SUCCESS then Except.ok () else Except.error ⟨msg⟩

/-- The configuration-level error (`FbossError` in the code, the spec's
ConfigurationError when raised by a capability profile). -/
structure FbossError where
  msg : String
deriving Repr, DecidableEq

/-! ## Capability profile: Trident2Asic

Embedding of fboss/agent/hw/switch_asics/Trident2Asic.h. `cfg::StreamType`
is a thrift enum; its raw values can lie outside the declared alternatives,
so it is modelled as a wrapped numeral with named constants (the concrete
numerals are arbitrary distinct values).
-/

structure StreamType where
  val : Nat
deriving Repr, DecidableEq

def StreamType.UNICAST : StreamType := ⟨0⟩

def StreamType.MULTICAST : StreamType := ⟨1⟩

def StreamType.ALL : StreamType := ⟨2⟩

/-- The capability profiles present in the repository source. -/
inductive AsicProfile where
  | trident2
deriving Repr, DecidableEq

/-- `Trident2Asic::getQueueStreamTypes`: MULTICAST for CPU-facing ports,
UNICAST for front-panel ports. -/
def getQueueStreamTypes (p : AsicProfile) (cpu : Bool) : List StreamType :=
  match p with
  | AsicProfile.trident2 =>
    if cpu then [StreamType.MULTICAST] else [StreamType.UNICAST]

/-- `Trident2Asic::getDefaultNumPortQueues`: 0 for UNICAST and MULTICAST,
a distinct FbossError for ALL, and another for any value outside the
declared enum alternatives (the switch statement's fall-through). -/
def getDefaultNumPortQueues (p : AsicProfile) (streamType : StreamType) :
    Except FbossError Int :=
  match p with
  | AsicProfile.trident2 =>
    if streamType = StreamType.UNICAST ∨ streamType = StreamType.MULTICAST then
      Except.ok 0
    else if streamType = StreamType.ALL then
      Except.error ⟨"no queue exist for this stream type"⟩
    else
      Except.error ⟨"Unknown streamType"⟩

/-- Modelled from the spec: the manager-side check "Querying an unsupported
stream-type/queue combination raises a ConfigurationError naming the
offending type" — the manager code performing this check is not in the
repository source. -/
def requestQueueStreamType (p : AsicProfile) (cpu : Bool) (t : StreamType) :
    Except FbossError Unit :=
  if t ∈ getQueueStreamTypes p cpu then Except.ok ()
  else Except.error ⟨"ConfigurationError: unsupported stream type"⟩

/-! ## Engine events

Each engine operation is modelled as producing, besides its result, a trace
of observable events: acquisition and release of the single process-wide
`SaiApiLock`, vendor SDK calls, buffer reallocation, and the XLOG identity
trace.
-/

inductive Event where
  | acquire
  | release
  | vendorCall
  | reallocBuf
  | logTrace
deriving Repr, DecidableEq

/-! ## AttributeValue

Modelled from the spec: `SaiAttribute` (SaiAttribute.h is not in the
repository source). A list-valued attribute is a typed (numeric id,
semantic value) pair separating logical length (`count`, filled in by the
vendor) from allocated capacity; `realloc` grows capacity to the
hardware-reported size and reinitializes the buffer for the next vendor
call; `value` extracts the semantic content of logical length. -/
structure ListAttrState where
  attrId : Nat
  capacity : Nat
  count : Nat
  buffer : List Nat
deriving Repr, DecidableEq

def reallocAttr (a : ListAttrState) : ListAttrState :=
  { a with capacity := a.count, buffer := [] }

def attrValue (a : ListAttrState) : List Nat :=
  a.buffer.take a.count

/-- A vendor adapter for attribute reads: the per-category `_getAttribute`
primitive, given the marshalled attribute record, returns a status and the
attribute record as rewritten by the hardware. -/
abbrev VendorGet : Type := ListAttrState → Int × ListAttrState

/-! ## SaiApi::getAttribute — scalar base case

Embedding of SaiApi.h lines 112-141: under the lock, issue the vendor get;
on SAI_STATUS_BUFFER_OVERFLOW realloc to the hardware-reported size and
reissue once; check the final status; return `attr.value()`. -/

structure GetAttrRun where
  result : Except SaiApiError (List Nat)
  finalAttr : ListAttrState
  trace : List Event

def getAttribute (vendor : VendorGet) (attr0 : ListAttrState) : GetAttrRun :=
  let r1 := vendor attr0
  if r1.1 = SAI_STATUS_BUFFER_OVERFLOW then
    let a2 := reallocAttr r1.2
    let r2 := vendor a2
    { result :=
        (saiApiCheckError r2.1 "Failed to get sai attribute").map
          (fun _ => attrValue r2.2)
      finalAttr := r2.2
      trace := [Event.acquire, Event.vendorCall, Event.reallocBuf,
                Event.vendorCall, Event.release] }
  else
    { result :=
        (saiApiCheckError r1.1 "Failed to get sai attribute").map
          (fun _ => attrValue r1.2)
      finalAttr := r1.2
      trace := [Event.acquire, Event.vendorCall, Event.release] }

/-- A faithful fake hardware adapter for one list attribute whose
authoritative hardware-side content is `hw`: it always fills in the
hardware-reported count; it fills the buffer only when the caller's
capacity suffices, and reports overflow otherwise. -/
def fakeVendor (hw : List Nat) : VendorGet := fun a =>
  if a.capacity < hw.length then
    (SAI_STATUS_BUFFER_OVERFLOW, { a with count := hw.length })
  else
    (SAI_STATUS_SUCCESS, { a with count := hw.length, buffer := hw })

/-! ## SaiApi::getAttribute — tuple overload

Embedding of SaiApi.h lines 143-157: `tupleMap` of the scalar
`getAttribute` over the aggregate, element by element in order, modelled on
a homogeneous ordered list of attributes. -/

def getAttributeTuple (vendor : VendorGet) :
    List ListAttrState → Except SaiApiError (List (List Nat))
  | [] => Except.ok []
  | a :: rest =>
    match (getAttribute vendor a).result with
    | Except.error e => Except.error e
    | Except.ok v =>
      match getAttributeTuple vendor rest with
      | Except.error e => Except.error e
      | Except.ok vs => Except.ok (v :: vs)

/-! ## SaiApi::getAttribute — optional overload

Embedding of SaiApi.h lines 159-172: `attrOptional.value_or(AttrT{})`
followed by the scalar read, wrapped back into an engaged optional.
The default-constructed attribute of a given kind is modelled from the
spec (SaiAttribute.h is not in the repository source): an empty attribute
record carrying the kind's numeric id. -/

def defaultListAttr (attrId : Nat) : ListAttrState :=
  { attrId := attrId, capacity := 0, count := 0, buffer := [] }

def getAttributeOptional (vendor : VendorGet) (attrId : Nat)
    (attrOptional : Option ListAttrState) :
    Except SaiApiError (Option (List Nat)) :=
  let attr := attrOptional.getD (defaultListAttr attrId)
  ((getAttribute vendor attr).result).map (fun v => some v)

/-! ## SaiApi::create / remove / setAttribute

Embedding of SaiApi.h lines 57-101 and 174-179. Each operation takes the
lock, issues one vendor primitive call (whose status is a parameter, since
the per-category adapter is external to the engine), checks the status, and
— for the entry-struct create and for remove only — emits the XLOG identity
trace on success. The object-id create returns the vendor-generated key. -/

structure CreateOidRun where
  result : Except SaiApiError Nat
  trace : List Event

def createObjectId (vendorStatus : Int) (genKey : Nat) : CreateOidRun :=
  { result :=
      (saiApiCheckError vendorStatus "Failed to create sai entity").map
        (fun _ => genKey)
    trace := [Event.acquire, Event.vendorCall, Event.release] }

structure OpRun where
  result : Except SaiApiError Unit
  trace : List Event

def createEntry (vendorStatus : Int) : OpRun :=
  { result := saiApiCheckError vendorStatus "Failed to create sai entity"
    trace :=
      if vendorStatus = SAI_STATUS_SUCCESS then
        [Event.acquire, Event.vendorCall, Event.logTrace, Event.release]
      else
        [Event.acquire, Event.vendorCall, Event.release] }

def remove (vendorStatus : Int) : OpRun :=
  { result := saiApiCheckError vendorStatus "Failed to remove sai object"
    trace :=
      if vendorStatus = SAI_STATUS_SUCCESS then
        [Event.acquire, Event.vendorCall, Event.logTrace, Event.release]
      else
        [Event.acquire, Event.vendorCall, Event.release] }

def setAttribute (vendorStatus : Int) : OpRun :=
  { result := saiApiCheckError vendorStatus "Failed to set attribute"
    trace := [Event.acquire, Event.vendorCall, Event.release] }

/-! ## SaiApi::getStats

Embedding of SaiApi.h lines 181-221. The object descriptor
(`SaiObjectTraits`) carries the default counter-id list and the counter
aggregation mode. `getStatsImpl` resizes the output vector to the
counter-id count, issues `_getStats`, and checks the status; the two public
overloads wrap it in the lock, one with an explicit counter-id list and one
with the descriptor's default list. The vendor `_getStats` primitive is a
parameter returning a status and the values it writes into the output
buffer; writes are clipped to the buffer size and unwritten slots keep the
resize's zero fill. -/

structure SaiObjectTraits where
  CounterIds : List Nat
  CounterMode : Nat
deriving Repr, DecidableEq

abbrev VendorStats : Type := List Nat → Nat → Nat → Int × List Nat

def writeCounters (n : Nat) (vals : List Nat) : List Nat :=
  vals.take n ++ List.replicate (n - vals.length) 0

structure GetStatsRun where
  result : Except SaiApiError (List Nat)
  trace : List Event

def getStatsImpl (vendor : VendorStats) (counterIds : List Nat)
    (mode : Nat) : Except SaiApiError (List Nat) :=
  let n := counterIds.length
  let r := vendor counterIds mode n
  (saiApiCheckError r.1 "Failed to get stats").map
    (fun _ => writeCounters n r.2)

def getStats (traits : SaiObjectTraits) (vendor : VendorStats)
    (counterIds : List Nat) : GetStatsRun :=
  { result := getStatsImpl vendor counterIds traits.CounterMode
    trace := [Event.acquire, Event.vendorCall, Event.release] }

def getStatsDefault (traits : SaiObjectTraits) (vendor : VendorStats) :
    GetStatsRun :=
  { result := getStatsImpl vendor traits.CounterIds traits.CounterMode
    trace := [Event.acquire, Event.vendorCall, Event.release] }

/-! ## SaiManagerTable

Embedding of fboss/agent/hw/sai/switch/SaiManagerTable.cpp. Pointer
identities (the shared `SaiApiTable*` and the registry's own address passed
as back-reference) are modelled as numerals. The constructor builds the
bridge manager first, then the port manager, handing each the same
`apiTable_` pointer and `this`; besides the constructed registry it yields
the construction-order log. Each manager records its constructor
arguments. -/

structure SaiBridgeManager where
  apiTablePtr : Nat
  managerTablePtr : Nat
deriving Repr, DecidableEq

structure SaiPortManager where
  apiTablePtr : Nat
  managerTablePtr : Nat
deriving Repr, DecidableEq

inductive ManagerKind where
  | bridge
  | port
deriving Repr, DecidableEq

structure SaiManagerTable where
  apiTable_ : Nat
  bridgeManager_ : SaiBridgeManager
  portManager_ : SaiPortManager
deriving Repr, DecidableEq

def mkSaiManagerTable (apiTable selfPtr : Nat) :
    SaiManagerTable × List ManagerKind :=
  ({ apiTable_ := apiTable
     bridgeManager_ :=
       { apiTablePtr := apiTable, managerTablePtr := selfPtr }
     portManager_ :=
       { apiTablePtr := apiTable, managerTablePtr := selfPtr } },
   [ManagerKind.bridge, ManagerKind.port])

def SaiManagerTable.bridgeManager (t : SaiManagerTable) : SaiBridgeManager :=
  t.bridgeManager_

def SaiManagerTable.bridgeManagerConst (t : SaiManagerTable) :
    SaiBridgeManager :=
  t.bridgeManager_

def SaiManagerTable.portManager (t : SaiManagerTable) : SaiPortManager :=
  t.portManager_

def SaiManagerTable.portManagerConst (t : SaiManagerTable) : SaiPortManager :=
  t.portManager_

/-! ## Lock schedules

Modelled from the spec: `SaiApiLock` (SaiApiLock.h is not in the repository
source) is the single process-wide mutual-exclusion primitive serializing
every vendor call. A schedule interleaves the event traces of two threads;
it is valid when lock acquisition only succeeds on a free lock and release
only by the holder. Events other than acquire/release leave the lock state
unchanged. -/

abbrev Sched : Type := List (Bool × Event)

def lockStep (st : Option Bool) (e : Bool × Event) : Option (Option Bool) :=
  match st, e with
  | none, (tid, Event.acquire) => some (some tid)
  | some _, (_, Event.acquire) => none
  | some h, (tid, Event.release) => if h = tid then some none else none
  | none, (_, Event.release) => none
  | st, (_, _) => some st

def validFrom (st : Option Bool) : Sched → Bool
  | [] => true
  | e :: rest =>
    match lockStep st e with
    | none => false
    | some st2 => validFrom st2 rest

def validSched (s : Sched) : Bool := validFrom none s

def projTrace (b : Bool) : Sched → List Event
  | [] => []
  | (tid, e) :: rest =>
    if tid = b then e :: projTrace b rest else projTrace b rest

/-- A trace consisting of exactly one critical section: the lock is taken
first, released last, and never touched in between. -/
def singleCriticalSection (t : List Event) : Prop :=
  ∃ mid, t = Event.acquire :: mid ++ [Event.release] ∧
    Event.acquire ∉ mid ∧ Event.release ∉ mid

def tagTrace (b : Bool) (t : List Event) : Sched :=
  t.map (fun e => (b, e))

/-- Whether an `Except` result is a success. -/
def exceptIsOk {ε α : Type} : Except ε α → Bool
  | Except.ok _ => true
  | Except.error _ => false

/-! ## Theorems -/

/-- C6: for every capability profile in the repository, requesting the
default queue count for the umbrella StreamType::ALL value always raises a
ConfigurationError ("no queue exist for this stream type"); the call never
returns a count for that value. -/
theorem c6_default_queue_count_all_always_errors :
    ∀ p : AsicProfile,
      getDefaultNumPortQueues p StreamType.ALL =
        Except.error ⟨"no queue exist for this stream type"⟩ ∧
      exceptIsOk (getDefaultNumPortQueues p StreamType.ALL) = false := by
  intro p
  cases p
  exact ⟨rfl, rfl⟩

/-- C7: the Trident2 profile supports exactly MULTICAST on CPU-facing ports
and exactly UNICAST on front-panel ports, and requesting the unsupported
combination for either port kind raises ConfigurationError. -/
theorem c7_trident2_queue_stream_types :
    getQueueStreamTypes AsicProfile.trident2 true = [StreamType.MULTICAST] ∧
    getQueueStreamTypes AsicProfile.trident2 false = [StreamType.UNICAST] ∧
    requestQueueStreamType AsicProfile.trident2 true StreamType.UNICAST =
      Except.error ⟨"ConfigurationError: unsupported stream type"⟩ ∧
    requestQueueStreamType AsicProfile.trident2 false StreamType.MULTICAST =
      Except.error ⟨"ConfigurationError: unsupported stream type"⟩ ∧
    requestQueueStreamType AsicProfile.trident2 true StreamType.MULTICAST =
      Except.ok () ∧
    requestQueueStreamType AsicProfile.trident2 false StreamType.UNICAST =
      Except.ok () := by
  refine ⟨rfl, rfl, ?_, ?_, ?_, ?_⟩ <;> rfl

/-- C9: on the Trident2 profile, getDefaultNumPortQueues returns 0 for
UNICAST and MULTICAST, raises "no queue exist for this stream type" for
ALL, raises "Unknown streamType" for every value outside the declared enum
alternatives, and succeeds if and only if the stream type is UNICAST or
MULTICAST. -/
theorem c9_trident2_default_queue_count_characterization :
    ∀ t : StreamType,
      (t = StreamType.UNICAST ∨ t = StreamType.MULTICAST →
        getDefaultNumPortQueues AsicProfile.trident2 t = Except.ok 0) ∧
      (t = StreamType.ALL →
        getDefaultNumPortQueues AsicProfile.trident2 t =
          Except.error ⟨"no queue exist for this stream type"⟩) ∧
      (t ≠ StreamType.UNICAST → t ≠ StreamType.MULTICAST →
        t ≠ StreamType.ALL →
        getDefaultNumPortQueues AsicProfile.trident2 t =
          Except.error ⟨"Unknown streamType"⟩) ∧
      (exceptIsOk (getDefaultNumPortQueues AsicProfile.trident2 t) = true ↔
        (t = StreamType.UNICAST ∨ t = StreamType.MULTICAST)) := by
  intro t
  by_cases h1 : t = StreamType.UNICAST ∨ t = StreamType.MULTICAST
  · refine ⟨fun _ => ?_, fun hall => ?_, fun hu hm _ => ?_, ?_⟩
    · simp [getDefaultNumPortQueues, h1]
    · rcases h1 with h | h <;> rw [h] at hall <;> cases hall
    · rcases h1 with h | h
      · exact absurd h hu
      · exact absurd h hm
    · simp [getDefaultNumPortQueues, h1, exceptIsOk]
  · by_cases h2 : t = StreamType.ALL
    · subst h2
      exact ⟨fun h => absurd h h1, fun _ => rfl,
        fun _ _ h3 => absurd rfl h3, by decide⟩
    · refine ⟨fun h => absurd h h1, fun h => absurd h h2, fun _ _ _ => ?_,
        ?_⟩
      · simp [getDefaultNumPortQueues, h1, h2]
      · simp [getDefaultNumPortQueues, h1, h2, exceptIsOk]

/-- C9 witness: the theorem applied at StreamType.ALL, discharging the
hypothesis of its ALL clause. -/
theorem c9_trident2_default_queue_count_characterization_witness :
    StreamType.ALL = StreamType.ALL ∧
    getDefaultNumPortQueues AsicProfile.trident2 StreamType.ALL =
      Except.error ⟨"no queue exist for this stream type"⟩ :=
  ⟨rfl,
    (c9_trident2_default_queue_count_characterization StreamType.ALL).2.1
      rfl⟩

/-- C10: the registry constructor builds the bridge manager before the port
manager, hands both the same vendor-API-table pointer and the registry's
own address as back-reference, and the mutable and const accessors both
return exactly the constructed manager instances. -/
theorem c10_manager_table_construction :
    ∀ apiTable selfPtr : Nat,
      (mkSaiManagerTable apiTable selfPtr).2 =
        [ManagerKind.bridge, ManagerKind.port] ∧
      ((mkSaiManagerTable apiTable selfPtr).1.bridgeManager.apiTablePtr =
          apiTable ∧
        (mkSaiManagerTable apiTable selfPtr).1.portManager.apiTablePtr =
          apiTable) ∧
      ((mkSaiManagerTable apiTable selfPtr).1.bridgeManager.managerTablePtr =
          selfPtr ∧
        (mkSaiManagerTable apiTable selfPtr).1.portManager.managerTablePtr =
          selfPtr) ∧
      ((mkSaiManagerTable apiTable selfPtr).1.bridgeManager =
          (mkSaiManagerTable apiTable selfPtr).1.bridgeManager_ ∧
        (mkSaiManagerTable apiTable selfPtr).1.bridgeManagerConst =
          (mkSaiManagerTable apiTable selfPtr).1.bridgeManager_) ∧
      ((mkSaiManagerTable apiTable selfPtr).1.portManager =
          (mkSaiManagerTable apiTable selfPtr).1.portManager_ ∧
        (mkSaiManagerTable apiTable selfPtr).1.portManagerConst =
          (mkSaiManagerTable apiTable selfPtr).1.portManager_) := by
  intro apiTable selfPtr
  exact ⟨rfl, ⟨rfl, rfl⟩, ⟨rfl, rfl⟩, ⟨rfl, rfl⟩, ⟨rfl, rfl⟩⟩

/-! ### getAttribute branch equations -/

lemma getAttribute_overflow_eq (vendor : VendorGet) (a0 : ListAttrState)
    (h : (vendor a0).1 = SAI_STATUS_BUFFER_OVERFLOW) :
    getAttribute vendor a0 =
      { result :=
          (saiApiCheckError (vendor (reallocAttr (vendor a0).2)).1
              "Failed to get sai attribute").map
            (fun _ => attrValue (vendor (reallocAttr (vendor a0).2)).2)
        finalAttr := (vendor (reallocAttr (vendor a0).2)).2
        trace := [Event.acquire, Event.vendorCall, Event.reallocBuf,
                  Event.vendorCall, Event.release] } := by
  simp [getAttribute, h]

lemma getAttribute_no_overflow_eq (vendor : VendorGet) (a0 : ListAttrState)
    (h : ¬(vendor a0).1 = SAI_STATUS_BUFFER_OVERFLOW) :
    getAttribute vendor a0 =
      { result :=
          (saiApiCheckError (vendor a0).1 "Failed to get sai attribute").map
            (fun _ => attrValue (vendor a0).2)
        finalAttr := (vendor a0).2
        trace := [Event.acquire, Event.vendorCall, Event.release] } := by
  simp [getAttribute, h]

lemma saiApiCheckError_success (msg : String) :
    saiApiCheckError SAI_STATUS_SUCCESS msg = Except.ok () := by
  simp [saiApiCheckError]

lemma saiApiCheckError_failure (s : Int) (msg : String)
    (h : s ≠ SAI_STATUS_SUCCESS) :
    saiApiCheckError s msg = Except.error ⟨msg⟩ := by
  simp [saiApiCheckError, h]

lemma attrValue_length (a : ListAttrState) (h : a.count ≤ a.buffer.length) :
    (attrValue a).length = a.count := by
  simp [attrValue, h]

/-- C1: on a scalar attribute read, if the first vendor get reports
buffer overflow, the engine grows the buffer exactly once and reissues the
vendor get exactly once; a non-success status on the second attempt
(including a second overflow), or any non-success non-overflow status on
the first attempt, yields HardwareCallError; on success the returned
value's length equals the hardware-reported count; at most one retry ever
happens. The hypotheses say the vendor adapter, on a successful get,
reports a count no larger than the data it wrote. -/
theorem c1_getAttribute_buffer_overflow_retry
    (vendor : VendorGet) (a0 : ListAttrState)
    (h1 : (vendor a0).1 = SAI_STATUS_SUCCESS →
      (vendor a0).2.count ≤ (vendor a0).2.buffer.length)
    (h2 : (vendor (reallocAttr (vendor a0).2)).1 = SAI_STATUS_SUCCESS →
      (vendor (reallocAttr (vendor a0).2)).2.count ≤
        (vendor (reallocAttr (vendor a0).2)).2.buffer.length) :
    ((vendor a0).1 = SAI_STATUS_BUFFER_OVERFLOW →
      (getAttribute vendor a0).trace.count Event.vendorCall = 2 ∧
      (getAttribute vendor a0).trace.count Event.reallocBuf = 1) ∧
    ((vendor a0).1 = SAI_STATUS_BUFFER_OVERFLOW →
      (vendor (reallocAttr (vendor a0).2)).1 ≠ SAI_STATUS_SUCCESS →
      exceptIsOk (getAttribute vendor a0).result = false) ∧
    ((vendor a0).1 ≠ SAI_STATUS_BUFFER_OVERFLOW →
      (vendor a0).1 ≠ SAI_STATUS_SUCCESS →
      exceptIsOk (getAttribute vendor a0).result = false) ∧
    (∀ v, (getAttribute vendor a0).result = Except.ok v →
      v.length = (getAttribute vendor a0).finalAttr.count) ∧
    (getAttribute vendor a0).trace.count Event.vendorCall ≤ 2 ∧
    (getAttribute vendor a0).trace.count Event.reallocBuf ≤ 1 := by
  by_cases hov : (vendor a0).1 = SAI_STATUS_BUFFER_OVERFLOW
  · have htr : (getAttribute vendor a0).trace =
        [Event.acquire, Event.vendorCall, Event.reallocBuf,
         Event.vendorCall, Event.release] := by
      rw [getAttribute_overflow_eq vendor a0 hov]
    have hres : (getAttribute vendor a0).result =
        (saiApiCheckError (vendor (reallocAttr (vendor a0).2)).1
            "Failed to get sai attribute").map
          (fun _ => attrValue (vendor (reallocAttr (vendor a0).2)).2) := by
      rw [getAttribute_overflow_eq vendor a0 hov]
    have hfin : (getAttribute vendor a0).finalAttr =
        (vendor (reallocAttr (vendor a0).2)).2 := by
      rw [getAttribute_overflow_eq vendor a0 hov]
    refine ⟨fun _ => ⟨by rw [htr]; decide, by rw [htr]; decide⟩,
      fun _ hne => ?_, fun hno _ => absurd hov hno, ?_,
      by rw [htr]; decide, by rw [htr]; decide⟩
    · rw [hres, saiApiCheckError_failure _ _ hne]
      rfl
    · intro v hv
      rw [hres] at hv
      rw [hfin]
      by_cases hs2 :
          (vendor (reallocAttr (vendor a0).2)).1 = SAI_STATUS_SUCCESS
      · rw [hs2, saiApiCheckError_success] at hv
        simp only [Except.map] at hv
        injection hv with hv
        rw [← hv]
        exact attrValue_length _ (h2 hs2)
      · rw [saiApiCheckError_failure _ _ hs2] at hv
        simp only [Except.map] at hv
        cases hv
  · have htr : (getAttribute vendor a0).trace =
        [Event.acquire, Event.vendorCall, Event.release] := by
      rw [getAttribute_no_overflow_eq vendor a0 hov]
    have hres : (getAttribute vendor a0).result =
        (saiApiCheckError (vendor a0).1
            "Failed to get sai attribute").map
          (fun _ => attrValue (vendor a0).2) := by
      rw [getAttribute_no_overflow_eq vendor a0 hov]
    have hfin : (getAttribute vendor a0).finalAttr = (vendor a0).2 := by
      rw [getAttribute_no_overflow_eq vendor a0 hov]
    refine ⟨fun h => absurd h hov, fun h => absurd h hov,
      fun _ hne => ?_, ?_, by rw [htr]; decide, by rw [htr]; decide⟩
    · rw [hres, saiApiCheckError_failure _ _ hne]
      rfl
    · intro v hv
      rw [hres] at hv
      rw [hfin]
      by_cases hs1 : (vendor a0).1 = SAI_STATUS_SUCCESS
      · rw [hs1, saiApiCheckError_success] at hv
        simp only [Except.map] at hv
        injection hv with hv
        rw [← hv]
        exact attrValue_length _ (h1 hs1)
      · rw [saiApiCheckError_failure _ _ hs1] at hv
        simp only [Except.map] at hv
        cases hv

/-- C1 witness: the faithful fake adapter for a hardware list of length 10
read through a buffer of capacity 4: the first call overflows, the engine
regrows once, retries once, and returns all 10 elements. -/
theorem c1_getAttribute_buffer_overflow_retry_witness :
    ((fakeVendor [1, 2, 3, 4, 5, 6, 7, 8, 9, 10]
        ⟨1, 4, 0, []⟩).1 = SAI_STATUS_SUCCESS →
      (fakeVendor [1, 2, 3, 4, 5, 6, 7, 8, 9, 10]
        ⟨1, 4, 0, []⟩).2.count ≤
        (fakeVendor [1, 2, 3, 4, 5, 6, 7, 8, 9, 10]
          ⟨1, 4, 0, []⟩).2.buffer.length) ∧
    ((fakeVendor [1, 2, 3, 4, 5, 6, 7, 8, 9, 10]
        (reallocAttr (fakeVendor [1, 2, 3, 4, 5, 6, 7, 8, 9, 10]
          ⟨1, 4, 0, []⟩).2)).1 = SAI_STATUS_SUCCESS →
      (fakeVendor [1, 2, 3, 4, 5, 6, 7, 8, 9, 10]
        (reallocAttr (fakeVendor [1, 2, 3, 4, 5, 6, 7, 8, 9, 10]
          ⟨1, 4, 0, []⟩).2)).2.count ≤
        (fakeVendor [1, 2, 3, 4, 5, 6, 7, 8, 9, 10]
          (reallocAttr (fakeVendor [1, 2, 3, 4, 5, 6, 7, 8, 9, 10]
            ⟨1, 4, 0, []⟩).2)).2.buffer.length) ∧
    (getAttribute (fakeVendor [1, 2, 3, 4, 5, 6, 7, 8, 9, 10])
        ⟨1, 4, 0, []⟩).trace.count Event.vendorCall = 2 ∧
    (getAttribute (fakeVendor [1, 2, 3, 4, 5, 6, 7, 8, 9, 10])
        ⟨1, 4, 0, []⟩).trace.count Event.reallocBuf = 1 ∧
    (getAttribute (fakeVendor [1, 2, 3, 4, 5, 6, 7, 8, 9, 10])
        ⟨1, 4, 0, []⟩).result =
      Except.ok [1, 2, 3, 4, 5, 6, 7, 8, 9, 10] :=
  ⟨by decide, by decide,
    ((c1_getAttribute_buffer_overflow_retry
        (fakeVendor [1, 2, 3, 4, 5, 6, 7, 8, 9, 10]) ⟨1, 4, 0, []⟩
        (by decide) (by decide)).1 (by decide)).1,
    ((c1_getAttribute_buffer_overflow_retry
        (fakeVendor [1, 2, 3, 4, 5, 6, 7, 8, 9, 10]) ⟨1, 4, 0, []⟩
        (by decide) (by decide)).1 (by decide)).2,
    rfl⟩

/-! ### getStats length -/

lemma writeCounters_length (n : Nat) (vals : List Nat) :
    (writeCounters n vals).length = n := by
  unfold writeCounters
  simp only [List.length_append, List.length_take, List.length_replicate]
  omega

lemma getStatsImpl_ok (vendor : VendorStats) (counterIds : List Nat)
    (mode : Nat) (v : List Nat)
    (h : getStatsImpl vendor counterIds mode = Except.ok v) :
    v = writeCounters counterIds.length
        (vendor counterIds mode counterIds.length).2 := by
  simp only [getStatsImpl] at h
  by_cases hs : (vendor counterIds mode counterIds.length).1 =
      SAI_STATUS_SUCCESS
  · rw [hs, saiApiCheckError_success] at h
    simp only [Except.map] at h
    injection h with h
    exact h.symm
  · rw [saiApiCheckError_failure _ _ hs] at h
    simp only [Except.map] at h
    cases h

/-- C2: a getStats result vector's length always equals the counter-id
count used — the explicit list's length K when one is passed (for any K),
and the descriptor's default counter-id list length when omitted; the
explicit-list result is independent of the descriptor's default
counter-id list. -/
theorem c2_getStats_result_length
    (traits : SaiObjectTraits) (vendor : VendorStats)
    (counterIds : List Nat) :
    (∀ v, (getStats traits vendor counterIds).result = Except.ok v →
      v.length = counterIds.length) ∧
    (∀ v, (getStatsDefault traits vendor).result = Except.ok v →
      v.length = traits.CounterIds.length) ∧
    (∀ traits2 : SaiObjectTraits, traits2.CounterMode = traits.CounterMode →
      (getStats traits2 vendor counterIds).result =
        (getStats traits vendor counterIds).result) := by
  refine ⟨fun v hv => ?_, fun v hv => ?_, fun traits2 hmode => ?_⟩
  · rw [getStatsImpl_ok vendor counterIds traits.CounterMode v hv]
    exact writeCounters_length _ _
  · rw [getStatsImpl_ok vendor traits.CounterIds traits.CounterMode v hv]
    exact writeCounters_length _ _
  · show getStatsImpl vendor counterIds traits2.CounterMode =
      getStatsImpl vendor counterIds traits.CounterMode
    rw [hmode]

/-- C2 witness: an explicit list of three counter ids against a descriptor
whose default list is empty: the result has length 3, padded from the two
values the fake adapter wrote. -/
theorem c2_getStats_result_length_witness :
    (getStats ⟨[], 0⟩ (fun _ _ _ => (SAI_STATUS_SUCCESS, [5, 6]))
        [10, 20, 30]).result = Except.ok [5, 6, 0] ∧
    ([5, 6, 0] : List Nat).length = ([10, 20, 30] : List Nat).length :=
  ⟨rfl,
    (c2_getStats_result_length ⟨[], 0⟩
        (fun _ _ _ => (SAI_STATUS_SUCCESS, [5, 6])) [10, 20, 30]).1
      [5, 6, 0] rfl⟩

/-! ### tuple getAttribute -/

lemma getAttributeTuple_ok (vendor : VendorGet) :
    ∀ (attrs : List ListAttrState) (vs : List (List Nat)),
      getAttributeTuple vendor attrs = Except.ok vs →
      vs.length = attrs.length ∧
      ∀ i (hi : i < attrs.length) (hv : i < vs.length),
        (getAttribute vendor (attrs.get ⟨i, hi⟩)).result =
          Except.ok (vs.get ⟨i, hv⟩) := by
  intro attrs
  induction attrs with
  | nil =>
    intro vs h
    unfold getAttributeTuple at h
    injection h with h
    subst h
    exact ⟨rfl, fun i hi _ => absurd hi (by simp)⟩
  | cons a rest ih =>
    intro vs h
    unfold getAttributeTuple at h
    cases hr : (getAttribute vendor a).result with
    | error e => rw [hr] at h; cases h
    | ok v =>
      rw [hr] at h
      cases hrest : getAttributeTuple vendor rest with
      | error e => rw [hrest] at h; cases h
      | ok vs2 =>
        rw [hrest] at h
        injection h with h
        subst h
        obtain ⟨hlen, hel⟩ := ih vs2 hrest
        refine ⟨by simp [hlen], ?_⟩
        intro i hi hv
        cases i with
        | zero => simpa using hr
        | succ j =>
          simp only [List.get_cons_succ]
          exact hel j (by simpa using hi) (by simpa using hv)

/-- C4: getAttribute on an ordered aggregate of N attributes (N ≥ 1)
returns an aggregate of the same shape (same length) whose i-th element is
exactly the scalar getAttribute result on the i-th attribute, read in
order. -/
theorem c4_getAttribute_tuple_elementwise
    (vendor : VendorGet) (attrs : List ListAttrState)
    (vs : List (List Nat)) (_hn : 1 ≤ attrs.length)
    (hok : getAttributeTuple vendor attrs = Except.ok vs) :
    vs.length = attrs.length ∧
    ∀ i (hi : i < attrs.length) (hv : i < vs.length),
      (getAttribute vendor (attrs.get ⟨i, hi⟩)).result =
        Except.ok (vs.get ⟨i, hv⟩) :=
  getAttributeTuple_ok vendor attrs vs hok

/-- C4 witness: a two-attribute aggregate read through the faithful fake
adapter for hardware content [1, 2]; both slots hold their own scalar read
result. -/
theorem c4_getAttribute_tuple_elementwise_witness :
    1 ≤ ([⟨1, 2, 0, []⟩, ⟨2, 5, 0, []⟩] : List ListAttrState).length ∧
    getAttributeTuple (fakeVendor [1, 2]) [⟨1, 2, 0, []⟩, ⟨2, 5, 0, []⟩] =
      Except.ok [[1, 2], [1, 2]] ∧
    ([[1, 2], [1, 2]] : List (List Nat)).length =
      ([⟨1, 2, 0, []⟩, ⟨2, 5, 0, []⟩] : List ListAttrState).length :=
  ⟨by decide, rfl,
    (c4_getAttribute_tuple_elementwise (fakeVendor [1, 2])
        [⟨1, 2, 0, []⟩, ⟨2, 5, 0, []⟩] [[1, 2], [1, 2]]
        (by decide) rfl).1⟩

/-- C5: getAttribute on an optional attribute substitutes a
default-constructed attribute of the same kind when the optional is absent,
performs the scalar read on it, and wraps the result as present; any
successful return is an engaged optional — the call never signals
absence. -/
theorem c5_getAttribute_optional_always_engaged
    (vendor : VendorGet) (attrId : Nat)
    (attrOptional : Option ListAttrState) :
    (getAttributeOptional vendor attrId none =
      ((getAttribute vendor (defaultListAttr attrId)).result).map some) ∧
    (∀ a, getAttributeOptional vendor attrId (some a) =
      ((getAttribute vendor a).result).map some) ∧
    (∀ r, getAttributeOptional vendor attrId attrOptional = Except.ok r →
      r.isSome = true) := by
  refine ⟨rfl, fun a => rfl, fun r h => ?_⟩
  simp only [getAttributeOptional] at h
  cases hres : (getAttribute vendor
      (attrOptional.getD (defaultListAttr attrId))).result with
  | error e =>
    rw [hres] at h
    cases h
  | ok v =>
    rw [hres] at h
    simp only [Except.map] at h
    injection h with h
    rw [← h]
    rfl

/-- C5 witness: an absent optional of a kind whose hardware content is [3]:
the engine reads a default-constructed attribute (capacity 0, so one
overflow retry) and returns the engaged optional some [3]. -/
theorem c5_getAttribute_optional_always_engaged_witness :
    getAttributeOptional (fakeVendor [3]) 7 none =
      Except.ok (some [3]) ∧
    (some [3] : Option (List Nat)).isSome = true :=
  ⟨rfl,
    (c5_getAttribute_optional_always_engaged (fakeVendor [3]) 7 none).2.2
      (some [3]) rfl⟩

/-! ### create/remove identity-trace logging -/

/-- C8 counterexample: a successful create through the generated-handle
(object-id) variant emits no identity-trace log event, refuting the claim
that every successful create logs one. -/
theorem c8_create_oid_success_does_not_log :
    exceptIsOk (createObjectId SAI_STATUS_SUCCESS 42).result = true ∧
    Event.logTrace ∉ (createObjectId SAI_STATUS_SUCCESS 42).trace := by
  exact ⟨rfl, by decide⟩

/-- C8 amended: every successful entry-key create and every successful
remove logs an identity trace for the created or removed object; the
generated-handle create variant never logs one. -/
theorem c8_amended_identity_trace_logging (vendorStatus : Int) :
    (exceptIsOk (createEntry vendorStatus).result = true →
      Event.logTrace ∈ (createEntry vendorStatus).trace) ∧
    (exceptIsOk (remove vendorStatus).result = true →
      Event.logTrace ∈ (remove vendorStatus).trace) ∧
    (∀ genKey, Event.logTrace ∉ (createObjectId vendorStatus genKey).trace)
    := by
  by_cases h : vendorStatus = SAI_STATUS_SUCCESS
  · subst h
    refine ⟨fun _ => by decide, fun _ => by decide, fun genKey => ?_⟩
    show Event.logTrace ∉ [Event.acquire, Event.vendorCall, Event.release]
    decide
  · refine ⟨fun hok => ?_, fun hok => ?_, fun genKey => ?_⟩
    · rw [show (createEntry vendorStatus).result =
          saiApiCheckError vendorStatus "Failed to create sai entity"
          from rfl, saiApiCheckError_failure _ _ h] at hok
      cases hok
    · rw [show (remove vendorStatus).result =
          saiApiCheckError vendorStatus "Failed to remove sai object"
          from rfl, saiApiCheckError_failure _ _ h] at hok
      cases hok
    · show Event.logTrace ∉
        [Event.acquire, Event.vendorCall, Event.release]
      decide

/-- C8 amended witness: at a successful vendor status, the entry-key create
logs the identity trace. -/
theorem c8_amended_identity_trace_logging_witness :
    exceptIsOk (createEntry SAI_STATUS_SUCCESS).result = true ∧
    Event.logTrace ∈ (createEntry SAI_STATUS_SUCCESS).trace :=
  ⟨rfl,
    (c8_amended_identity_trace_logging SAI_STATUS_SUCCESS).1 rfl⟩

/-! ### Lock-schedule lemmas -/

lemma bool_eq_not_of_ne (a b : Bool) (h : a ≠ b) : a = !b := by
  cases a <;> cases b <;> simp_all

lemma projTrace_nil_eq (b : Bool) :
    ∀ s : Sched, projTrace b s = [] → s = tagTrace (!b) (projTrace (!b) s)
  | [], _ => rfl
  | (tid, e) :: rest, h => by
    by_cases htid : tid = b
    · subst htid
      simp [projTrace] at h
    · have htid2 : tid = !b := bool_eq_not_of_ne tid b htid
      have hrest : projTrace b rest = [] := by
        simpa [projTrace, htid] using h
      have hproj : projTrace (!b) ((tid, e) :: rest) =
          e :: projTrace (!b) rest := by
        simp [projTrace, htid2]
      rw [hproj]
      show (tid, e) :: rest = (!b, e) :: tagTrace (!b) (projTrace (!b) rest)
      rw [htid2, ← projTrace_nil_eq b rest hrest]

lemma proj_not_cons_self (b : Bool) (e : Event) (s : Sched) :
    projTrace (!b) ((b, e) :: s) = projTrace (!b) s := by
  cases b <;> simp [projTrace]

/-- While one thread holds the lock and its remaining events form the rest
of its critical section, no event of the other thread (whose next event
would have to be an acquire) can be scheduled: the schedule runs the
critical section to its release and only then the other thread. -/
lemma critical_section_run (b : Bool) :
    ∀ (s : Sched) (m : List Event),
      validFrom (some b) s = true →
      Event.acquire ∉ m → Event.release ∉ m →
      projTrace b s = m ++ [Event.release] →
      (projTrace (!b) s = [] ∨
        ∃ r2, projTrace (!b) s = Event.acquire :: r2) →
      s = tagTrace b (m ++ [Event.release]) ++
        tagTrace (!b) (projTrace (!b) s)
  | [], m, _, _, _, hproj, _ => by
    exfalso
    have hlen := congrArg List.length hproj
    simp [projTrace] at hlen
  | (tid, e) :: s', m, hval, hma, hmr, hproj, hother => by
    by_cases htid : tid = b
    · subst htid
      have hproj' : e :: projTrace tid s' = m ++ [Event.release] := by
        simpa [projTrace] using hproj
      cases m with
      | nil =>
        have he : e = Event.release := by
          injection hproj'
        subst he
        have hrest : projTrace tid s' = [] := by
          injection hproj'
        have hpo := proj_not_cons_self tid Event.release s'
        rw [hpo]
        show (tid, Event.release) :: s' =
          (tid, Event.release) :: tagTrace (!tid) (projTrace (!tid) s')
        exact congrArg _ (projTrace_nil_eq tid s' hrest)
      | cons e0 m' =>
        have he : e = e0 := by
          injection hproj'
        subst he
        have hrest : projTrace tid s' = m' ++ [Event.release] := by
          injection hproj'
        rw [List.mem_cons] at hma hmr
        push_neg at hma hmr
        obtain ⟨hma1, hma2⟩ := hma
        obtain ⟨hmr1, hmr2⟩ := hmr
        have hval' : validFrom (some tid) s' = true := by
          cases e with
          | acquire => exact absurd rfl hma1
          | release => exact absurd rfl hmr1
          | vendorCall => simpa [validFrom, lockStep] using hval
          | reallocBuf => simpa [validFrom, lockStep] using hval
          | logTrace => simpa [validFrom, lockStep] using hval
        have hpo := proj_not_cons_self tid e s'
        rw [hpo] at hother ⊢
        have ih := critical_section_run tid s' m' hval' hma2 hmr2 hrest
          hother
        show (tid, e) :: s' =
          (tid, e) :: (tagTrace tid (m' ++ [Event.release]) ++
            tagTrace (!tid) (projTrace (!tid) s'))
        exact congrArg _ ih
    · have htid2 : tid = !b := bool_eq_not_of_ne tid b htid
      have hpe : projTrace (!b) ((tid, e) :: s') =
          e :: projTrace (!b) s' := by
        simp [projTrace, htid2]
      have he : e = Event.acquire := by
        rcases hother with h0 | ⟨r2, h0⟩
        · rw [hpe] at h0
          cases h0
        · rw [hpe] at h0
          injection h0
      subst he
      simp [validFrom, lockStep] at hval

/-- A valid schedule interleaving two whole single-critical-section
operations runs one operation completely before the other. -/
lemma two_ops_serialize
    (s : Sched) (t1 t2 : List Event)
    (hval : validSched s = true)
    (h1 : singleCriticalSection t1) (h2 : singleCriticalSection t2)
    (hp1 : projTrace true s = t1) (hp2 : projTrace false s = t2) :
    s = tagTrace true t1 ++ tagTrace false t2 ∨
    s = tagTrace false t2 ++ tagTrace true t1 := by
  obtain ⟨m1, ht1, hm1a, hm1r⟩ := h1
  obtain ⟨m2, ht2, hm2a, hm2r⟩ := h2
  rw [List.cons_append] at ht1 ht2
  cases s with
  | nil =>
    exfalso
    rw [ht1] at hp1
    have hlen := congrArg List.length hp1
    simp [projTrace] at hlen
  | cons p s' =>
    obtain ⟨tid, e⟩ := p
    cases tid with
    | true =>
      rw [ht1] at hp1
      have hp1' : e :: projTrace true s' =
          Event.acquire :: (m1 ++ [Event.release]) := by
        simpa [projTrace] using hp1
      have he : e = Event.acquire := by
        injection hp1'
      subst he
      have hrest : projTrace true s' = m1 ++ [Event.release] := by
        injection hp1'
      have hval' : validFrom (some true) s' = true := by
        simpa [validSched, validFrom, lockStep] using hval
      have hp2' : projTrace false s' =
          Event.acquire :: (m2 ++ [Event.release]) := by
        have := proj_not_cons_self true Event.acquire s'
        rw [ht2] at hp2
        rw [← hp2]
        exact this.symm
      have hrun := critical_section_run true s' m1 hval' hm1a hm1r hrest
        (Or.inr ⟨m2 ++ [Event.release], hp2'⟩)
      left
      rw [ht1, ht2]
      show (true, Event.acquire) :: s' =
        (true, Event.acquire) ::
          (tagTrace true (m1 ++ [Event.release]) ++
            tagTrace false (Event.acquire :: (m2 ++ [Event.release])))
      rw [← hp2']
      exact congrArg _ hrun
    | false =>
      rw [ht2] at hp2
      have hp2' : e :: projTrace false s' =
          Event.acquire :: (m2 ++ [Event.release]) := by
        simpa [projTrace] using hp2
      have he : e = Event.acquire := by
        injection hp2'
      subst he
      have hrest : projTrace false s' = m2 ++ [Event.release] := by
        injection hp2'
      have hval' : validFrom (some false) s' = true := by
        simpa [validSched, validFrom, lockStep] using hval
      have hp1' : projTrace true s' =
          Event.acquire :: (m1 ++ [Event.release]) := by
        have := proj_not_cons_self false Event.acquire s'
        rw [ht1] at hp1
        rw [← hp1]
        exact this.symm
      have hrun := critical_section_run false s' m2 hval' hm2a hm2r hrest
        (Or.inr ⟨m1 ++ [Event.release], hp1'⟩)
      right
      rw [ht1, ht2]
      show (false, Event.acquire) :: s' =
        (false, Event.acquire) ::
          (tagTrace false (m2 ++ [Event.release]) ++
            tagTrace true (Event.acquire :: (m1 ++ [Event.release])))
      rw [← hp1']
      exact congrArg _ hrun

lemma getAttribute_trace_overflow (vendor : VendorGet) (a0 : ListAttrState)
    (h : (vendor a0).1 = SAI_STATUS_BUFFER_OVERFLOW) :
    (getAttribute vendor a0).trace =
      [Event.acquire, Event.vendorCall, Event.reallocBuf,
       Event.vendorCall, Event.release] := by
  rw [getAttribute_overflow_eq vendor a0 h]

lemma getAttribute_trace_no_overflow (vendor : VendorGet)
    (a0 : ListAttrState)
    (h : ¬(vendor a0).1 = SAI_STATUS_BUFFER_OVERFLOW) :
    (getAttribute vendor a0).trace =
      [Event.acquire, Event.vendorCall, Event.release] := by
  rw [getAttribute_no_overflow_eq vendor a0 h]

/-- C3: every engine operation — both create variants, remove, the scalar
getAttribute (including its one buffer-overflow retry), setAttribute, and
both getStats overloads — performs all its vendor calls inside one
acquisition of the single process-wide lock; consequently any valid
interleaving of two such operations runs one operation entirely before the
other, so no other vendor call interleaves between the two attempts of a
scalar getAttribute. -/
theorem c3_vendor_calls_single_critical_section :
    (∀ vendorStatus genKey,
      singleCriticalSection (createObjectId vendorStatus genKey).trace) ∧
    (∀ vendorStatus,
      singleCriticalSection (createEntry vendorStatus).trace) ∧
    (∀ vendorStatus, singleCriticalSection (remove vendorStatus).trace) ∧
    (∀ vendorStatus,
      singleCriticalSection (setAttribute vendorStatus).trace) ∧
    (∀ (vendor : VendorGet) (a0 : ListAttrState),
      singleCriticalSection (getAttribute vendor a0).trace) ∧
    (∀ (traits : SaiObjectTraits) (vendor : VendorStats)
        (counterIds : List Nat),
      singleCriticalSection (getStats traits vendor counterIds).trace) ∧
    (∀ (traits : SaiObjectTraits) (vendor : VendorStats),
      singleCriticalSection (getStatsDefault traits vendor).trace) ∧
    (∀ (s : Sched) (t1 t2 : List Event),
      validSched s = true →
      singleCriticalSection t1 → singleCriticalSection t2 →
      projTrace true s = t1 → projTrace false s = t2 →
      s = tagTrace true t1 ++ tagTrace false t2 ∨
      s = tagTrace false t2 ++ tagTrace true t1) := by
  refine ⟨fun vendorStatus genKey => ?_, fun vendorStatus => ?_,
    fun vendorStatus => ?_, fun vendorStatus => ?_,
    fun vendor a0 => ?_, fun traits vendor counterIds => ?_,
    fun traits vendor => ?_, two_ops_serialize⟩
  · exact ⟨[Event.vendorCall], rfl, by decide, by decide⟩
  · by_cases h : vendorStatus = SAI_STATUS_SUCCESS <;>
      simp only [createEntry, h, if_true, if_false]
    · exact ⟨[Event.vendorCall, Event.logTrace], rfl, by decide, by decide⟩
    · exact ⟨[Event.vendorCall], rfl, by decide, by decide⟩
  · by_cases h : vendorStatus = SAI_STATUS_SUCCESS <;>
      simp only [remove, h, if_true, if_false]
    · exact ⟨[Event.vendorCall, Event.logTrace], rfl, by decide, by decide⟩
    · exact ⟨[Event.vendorCall], rfl, by decide, by decide⟩
  · exact ⟨[Event.vendorCall], rfl, by decide, by decide⟩
  · by_cases h : (vendor a0).1 = SAI_STATUS_BUFFER_OVERFLOW
    · rw [getAttribute_trace_overflow vendor a0 h]
      exact ⟨[Event.vendorCall, Event.reallocBuf, Event.vendorCall], rfl,
        by decide, by decide⟩
    · rw [getAttribute_trace_no_overflow vendor a0 h]
      exact ⟨[Event.vendorCall], rfl, by decide, by decide⟩
  · exact ⟨[Event.vendorCall], rfl, by decide, by decide⟩
  · exact ⟨[Event.vendorCall], rfl, by decide, by decide⟩

/-- C3 witness: a valid interleaving of an object-id create's critical
section (thread true) and a remove's critical section with its log event
(thread false), scheduled back to back; the serialization clause applies
and yields the left decomposition. -/
theorem c3_vendor_calls_single_critical_section_witness :
    validSched
      (tagTrace true [Event.acquire, Event.vendorCall, Event.release] ++
        tagTrace false [Event.acquire, Event.vendorCall, Event.logTrace,
          Event.release]) = true ∧
    singleCriticalSection
      [Event.acquire, Event.vendorCall, Event.release] ∧
    singleCriticalSection
      [Event.acquire, Event.vendorCall, Event.logTrace, Event.release] ∧
    (tagTrace true [Event.acquire, Event.vendorCall, Event.release] ++
        tagTrace false [Event.acquire, Event.vendorCall, Event.logTrace,
          Event.release] =
      tagTrace true [Event.acquire, Event.vendorCall, Event.release] ++
        tagTrace false [Event.acquire, Event.vendorCall, Event.logTrace,
          Event.release] ∨
      tagTrace true [Event.acquire, Event.vendorCall, Event.release] ++
        tagTrace false [Event.acquire, Event.vendorCall, Event.logTrace,
          Event.release] =
      tagTrace false [Event.acquire, Event.vendorCall, Event.logTrace,
          Event.release] ++
        tagTrace true [Event.acquire, Event.vendorCall, Event.release]) :=
  ⟨by decide,
    ⟨[Event.vendorCall], rfl, by decide, by decide⟩,
    ⟨[Event.vendorCall, Event.logTrace], rfl, by decide, by decide⟩,
    c3_vendor_calls_single_critical_section.2.2.2.2.2.2.2
      (tagTrace true [Event.acquire, Event.vendorCall, Event.release] ++
        tagTrace false [Event.acquire, Event.vendorCall, Event.logTrace,
          Event.release])
      [Event.acquire, Event.vendorCall, Event.release]
      [Event.acquire, Event.vendorCall, Event.logTrace, Event.release]
      (by decide)
      ⟨[Event.vendorCall], rfl, by decide, by decide⟩
      ⟨[Event.vendorCall, Event.logTrace], rfl, by decide, by decide⟩
      (by decide) (by decide)⟩

end Fboss
